import Mathlib

/- Shallow embedding of the django-dataclass-models repository
   (src/django_dataclass_models): foreign_key_typing.py, models.py and
   checks.py.  Python strings are Lean `String`, the process-wide registry
   dictionary is an insertion-ordered association list, and code paths that
   raise `ValueError` return `Except String`. -/

/-- The four valid relationship modes: the `valid_mode` literal strings
`"OneToOne" | "OneToMany" | "ManyToOne" | "ManyToMany"` of
foreign_key_typing.py. -/
inductive Mode where
  | OneToOne
  | OneToMany
  | ManyToOne
  | ManyToMany
deriving DecidableEq, Repr

/-- Rendering of a mode back to its Python string constant
(`ForeignRegistry.ONE_TO_ONE` etc). -/
def modeToStr : Mode → String
  | .OneToOne => "OneToOne"
  | .OneToMany => "OneToMany"
  | .ManyToOne => "ManyToOne"
  | .ManyToMany => "ManyToMany"

/-- `ForeignRegistry.flip_mode`: reverse the direction of the relationship.
The `case _` branch of the source raises for a string outside the four
modes; the `Mode` type only contains the four valid modes, so that branch
is not representable here. -/
def flip_mode : Mode → Mode
  | .OneToOne => .OneToOne
  | .OneToMany => .ManyToOne
  | .ManyToOne => .OneToMany
  | .ManyToMany => .ManyToMany

/-- `ForeignRegistry.str_to_mode`: convert a string to a mode, raising
`ValueError` on anything outside the four constants. -/
def str_to_mode (mode : String) : Except String Mode :=
  if mode = "OneToOne" then .ok .OneToOne
  else if mode = "OneToMany" then .ok .OneToMany
  else if mode = "ManyToOne" then .ok .ManyToOne
  else if mode = "ManyToMany" then .ok .ManyToMany
  else .error ("Unknown mode " ++ mode)

/-- The Django field classes (and this package's stand-ins) that the code
dispatches on, plus representatives of non-relationship field classes.
`PyOtherClass` stands for any class outside this set. -/
inductive FieldClass where
  | CharField
  | IntegerField
  | FloatField
  | BooleanField
  | DateTimeField
  | DateField
  | TimeField
  | DurationField
  | DecimalField
  | JSONField
  | BinaryField
  | TextField
  | SlugField
  | EmailField
  | FileField
  | ImageField
  | ForeignKey
  | OneToOneField
  | ManyToManyField
  | OneToManyFieldStandIn
  | BigAutoField
  | PyOtherClass (name : String)
deriving DecidableEq, Repr

/-- Python `issubclass` on the field classes above.  In Django,
`OneToOneField` is a subclass of `ForeignKey`; the remaining classes here
are unrelated to each other. -/
def field_issubclass (a b : FieldClass) : Bool :=
  a = b || (a = .OneToOneField && b = .ForeignKey)

/-- `ForeignRegistry.field_type_to_mode`: convert a field class to a mode
via a chain of `issubclass` tests, raising `ValueError` when none match. -/
def field_type_to_mode (field_type : FieldClass) : Except String Mode :=
  if field_issubclass field_type .ForeignKey then .ok .ManyToOne
  else if field_issubclass field_type .ManyToManyField then .ok .ManyToMany
  else if field_issubclass field_type .OneToOneField then .ok .OneToOne
  else if field_issubclass field_type .OneToManyFieldStandIn then .ok .OneToMany
  else .error "Unknown field type"

/-- The `many_to_many` class flag used by `register_field_object`. -/
def many_to_many_flag : FieldClass → Bool
  | .ManyToManyField => true
  | _ => false

/-- The `one_to_one` class flag used by `register_field_object`. -/
def one_to_one_flag : FieldClass → Bool
  | .OneToOneField => true
  | _ => false

/-- The `one_to_many` class flag: set on `OneToManyFieldStandIn` (and on
reverse descriptors, which never reach this code path). -/
def one_to_many_flag : FieldClass → Bool
  | .OneToManyFieldStandIn => true
  | _ => false

/-- The `many_to_one` class flag: `ForeignKey` and its subclass
`OneToOneField` set it, as does `OneToManyFieldStandIn`. -/
def many_to_one_flag : FieldClass → Bool
  | .ForeignKey => true
  | .OneToOneField => true
  | .OneToManyFieldStandIn => true
  | _ => false

/-- The object standing for a related model in an annotation: a model
class, a string name (forward reference), or `typing.Self`. -/
inductive RelItem where
  | modelCls (name : String)
  | strName (name : String)
  | selfRef
deriving DecidableEq, Repr

/-- `fix_self` (models.py) on a related-model item: `typing.Self` and the
literal string `"Self"` (`obj in (Self, "Self")`, the latter left behind
by annotation evaluation) become the string `"self"`; anything else
passes through. -/
def fix_self_item : RelItem → RelItem
  | .selfRef => .strName "self"
  | .strName s => .strName (if s = "Self" then "self" else s)
  | x => x

/-- Name of the related model as used by `register_field_object`: a class
is replaced by its `__name__`, a string stays.  `selfRef` is unreachable
there because `fix_self` ran first. -/
def relItemName : RelItem → String
  | .modelCls n => n
  | .strName n => n
  | .selfRef => "Self"

/-- A keyword-argument value appearing in the field lookups of models.py. -/
inductive KwValue where
  | s (v : String)
  | n (v : Nat)
  | b (v : Bool)
  | rel (v : RelItem)
  | cascade
deriving DecidableEq, Repr

/-- Python dict assignment `kwargs[key] = value` on a keyword-argument
list: replace the first binding in place, else append. -/
def kwInsert : List (String × KwValue) → String → KwValue → List (String × KwValue)
  | [], k, v => [(k, v)]
  | (k0, v0) :: rest, k, v =>
    if k0 = k then (k, v) :: rest else (k0, v0) :: kwInsert rest k v

/-- Lookup in a keyword-argument list. -/
def kwLookup : List (String × KwValue) → String → Option KwValue
  | [], _ => none
  | (k0, v0) :: rest, k => if k = k0 then some v0 else kwLookup rest k

/-- `FieldLookup` (models.py): a field class together with default
keyword arguments and the key under which a default value is stored. -/
structure FieldLookup where
  field : FieldClass
  default_key : String
  default_kwargs : List (String × KwValue)
deriving DecidableEq, Repr

/-- A constructed field object `self.field(**kwargs)`: the class it was
instantiated from and the keyword arguments passed. -/
structure FieldInstance where
  cls : FieldClass
  kwargs : List (String × KwValue)
deriving DecidableEq, Repr

/-- `FieldLookup.item`: build the field with the configured options.
`null` and `blank` are only added when truthy, and `default` only when it
is a non-empty string (`if default:`). -/
def FieldLookup.item (fl : FieldLookup) (default : Option String) (null : Bool)
    (blank : Bool) : FieldInstance :=
  let kwargs := fl.default_kwargs
  let kwargs := if null then kwInsert kwargs "null" (.b null) else kwargs
  let kwargs := if blank then kwInsert kwargs "blank" (.b blank) else kwargs
  let kwargs :=
    match default with
    | some d => if d = "" then kwargs else kwInsert kwargs fl.default_key (.s d)
    | none => kwargs
  ⟨fl.field, kwargs⟩

/-- `field.remote_field.model` of a constructed relation field: the value
passed as the `to` keyword argument. -/
def FieldInstance.toModel (f : FieldInstance) : Option RelItem :=
  match kwLookup f.kwargs "to" with
  | some (.rel v) => some v
  | _ => none

/-- `field.remote_field.related_name` of a constructed relation field. -/
def FieldInstance.relatedName (f : FieldInstance) : Option String :=
  match kwLookup f.kwargs "related_name" with
  | some (.s v) => some v
  | _ => none

/-- The Python types keyed in the `types_to_fields` lookup table, plus
`pyOther` for any type without a registered field. -/
inductive PlainTy where
  | pyStr
  | pyInt
  | pyFloat
  | pyBool
  | pyDatetime
  | pyDate
  | pyTime
  | pyTimedelta
  | pyDecimal
  | pyList
  | pyDict
  | pyBytes
  | pyOther (name : String)
deriving DecidableEq, Repr

/-- The `types_to_fields` lookup table of models.py (the initial contents
of `FieldTypeRegistry.lookup_registry`). -/
def types_to_fields : PlainTy → Option FieldLookup
  | .pyStr => some ⟨.CharField, "default", [("max_length", .n 255)]⟩
  | .pyInt => some ⟨.IntegerField, "default", []⟩
  | .pyFloat => some ⟨.FloatField, "default", []⟩
  | .pyBool => some ⟨.BooleanField, "default", []⟩
  | .pyDatetime => some ⟨.DateTimeField, "default", []⟩
  | .pyDate => some ⟨.DateField, "default", []⟩
  | .pyTime => some ⟨.TimeField, "default", []⟩
  | .pyTimedelta => some ⟨.DurationField, "default", []⟩
  | .pyDecimal => some ⟨.DecimalField, "default",
      [("max_digits", .n 10), ("decimal_places", .n 2)]⟩
  | .pyList => some ⟨.JSONField, "default", []⟩
  | .pyDict => some ⟨.JSONField, "default", []⟩
  | .pyBytes => some ⟨.BinaryField, "default", []⟩
  | .pyOther _ => none

/-- The annotation shapes `FieldTypeRegistry.get_django_lookup` dispatches
on: `typing.Self`, a bare model class, a bare string, a `OneToOne[X]` or
`ManyToOne[X]` holder instance, a `ManyToMany[X]` or `OneToMany[X]`
generic alias, a plain type, an `Annotated` type carrying a `FieldLookup`
or a field-class-and-dict pair, or a generic alias such as `list[int]`. -/
inductive TypeHint where
  | selfTy
  | modelClass (name : String)
  | strHint (name : String)
  | oneToOneHint (item : RelItem)
  | manyToOneHint (item : RelItem)
  | manyToManyHint (arg : RelItem)
  | oneToManyHint (arg : RelItem)
  | plainTy (t : PlainTy)
  | annotatedFL (fl : FieldLookup)
  | annotatedFieldDict (cls : FieldClass) (kw : List (String × KwValue))
  | genericAliasOf (origin : PlainTy)
deriving DecidableEq, Repr

/-- `fix_self` (models.py) applied to a whole annotation, as at the top
of `get_django_lookup`: `typing.Self` and the literal string `"Self"`
become the string `"self"`; anything else passes through. -/
def fix_self_hint : TypeHint → TypeHint
  | .selfTy => .strHint "self"
  | .strHint s => .strHint (if s = "Self" then "self" else s)
  | x => x

/-- `FieldTypeRegistry.get_django_lookup`: convert a type hint to a
`FieldLookup`.  `fix_self` runs first; a bare model class or string is
wrapped as `ManyToOne`; the relationship shapes produce relation field
lookups; a non-annotated generic alias falls back to its origin; the
final fallback is the `types_to_fields` table, `none` when absent.  The
`NotImplementedError` branch for a bare `GenericManager` and the
`ValueError` branches for malformed aliases or metadata concern shapes
not representable in this hint type. -/
def get_django_lookup (field_type : TypeHint) : Option FieldLookup :=
  let field_type := fix_self_hint field_type
  let field_type : TypeHint :=
    match field_type with
    | .modelClass n => .manyToOneHint (.modelCls n)
    | .strHint s => .manyToOneHint (.strName s)
    | x => x
  match field_type with
  | .manyToOneHint item =>
    some ⟨.ForeignKey, "related_name",
      [("on_delete", .cascade), ("to", .rel (fix_self_item item))]⟩
  | .oneToOneHint item =>
    some ⟨.OneToOneField, "related_name",
      [("to", .rel (fix_self_item item)), ("on_delete", .cascade)]⟩
  | .manyToManyHint arg =>
    some ⟨.ManyToManyField, "related_name", [("to", .rel (fix_self_item arg))]⟩
  | .oneToManyHint arg =>
    some ⟨.OneToManyFieldStandIn, "related_name", [("to", .rel (fix_self_item arg))]⟩
  | .genericAliasOf origin => types_to_fields origin
  | .annotatedFL fl => some fl
  | .annotatedFieldDict cls kw => some ⟨cls, "default", kw⟩
  | .plainTy t => types_to_fields t
  | .selfTy => none
  | .modelClass _ => none
  | .strHint _ => none

/-- The registry key type `_key_type = tuple[valid_mode, str, str, str, str]`:
(mode, modelA, modelB, fieldA, fieldB). -/
abbrev RegKey := Mode × String × String × String × String

/-- A `ForeignRegistry` relationship record: mode, the two model names,
the two field names, and the `reverse_created` resolution flag. -/
structure Record where
  mode : Mode
  modelA : String
  modelB : String
  fieldA : String
  fieldB : String
  reverse_created : Bool
deriving DecidableEq, Repr

/-- `ForeignRegistry.get_key`: the tuple compounding all input values.
The source raises when `fieldB` is `None`; a constructed `Record` always
carries a resolved `fieldB` string (see `resolve_fieldB`). -/
def get_key (r : Record) : RegKey :=
  (r.mode, r.modelA, r.modelB, r.fieldA, r.fieldB)

/-- `ForeignRegistry.get_reverse_key`: the key the reverse relationship
would have - flipped mode, the two models swapped, the two fields
swapped. -/
def get_reverse_key (r : Record) : RegKey :=
  (flip_mode r.mode, r.modelB, r.modelA, r.fieldB, r.fieldA)

/-- The reverse-key transformation at the level of key tuples; applying
it to `get_key r` gives `get_reverse_key r`. -/
def revKey : RegKey → RegKey
  | (m, a, b, fa, fb) => (flip_mode m, b, a, fb, fa)

/-- `ForeignRegistry.reverse_mode`: the expected mode of the reverse
relationship. -/
def reverse_mode (r : Record) : Mode :=
  flip_mode r.mode

/-- The class-level `_registry` dictionary, as an insertion-ordered
association list from key tuples to records. -/
abbrev Registry := List (RegKey × Record)

/-- Dictionary lookup `self._registry[key]` (also the membership test
`key in self._registry`). -/
def regLookup : Registry → RegKey → Option Record
  | [], _ => none
  | (k0, r0) :: rest, k => if k = k0 then some r0 else regLookup rest k

/-- Dictionary assignment `self._registry[key] = record`: replace the
binding in place when the key is present, else append at the end. -/
def dictInsert : Registry → RegKey → Record → Registry
  | [], k, r => [(k, r)]
  | (k0, r0) :: rest, k, r =>
    if k0 = k then (k, r) :: rest else (k0, r0) :: dictInsert rest k r

/-- `self._registry.values()` in registration order. -/
def regValues (reg : Registry) : List Record :=
  reg.map Prod.snd

/-- Python `str.lower`, modelled characterwise with `Char.toLower`
(ASCII case mapping). -/
def pyLower (s : String) : String :=
  ⟨s.data.map Char.toLower⟩

/-- The `if fieldB is None:` defaulting block of `ForeignRegistry.__init__`:
a missing reverse field name becomes the lowercased modelA name for
`OneToOne`, and that name followed by `"_set"` for the other three modes.
An explicit `fieldB` passes through unchanged. -/
def resolve_fieldB (mode : Mode) (modelA : String) (fieldB : Option String) :
    Option String :=
  match fieldB with
  | some f => some f
  | none =>
    match mode with
    | .OneToOne => some (pyLower modelA)
    | .OneToMany => some (pyLower modelA ++ "_set")
    | .ManyToOne => some (pyLower modelA ++ "_set")
    | .ManyToMany => some (pyLower modelA ++ "_set")

/-- `ForeignRegistry.__init__` (after mode normalisation) followed by the
`check_for_reverse` call it makes: default `fieldB`, store the new record
under its own key, and if the reverse key is already present mark both
sides `reverse_created`, raising `ValueError` when the record found under
the reverse key was itself already marked.  Mutation of the freshly
stored `self` is modelled by re-inserting the updated record at its key,
and the `reverse` object looked up from the registry is read after that
mutation, as in the source.  Returns the updated registry together with
the final state of the new record (`__init__` returns `self`).  The
`none` branch of `resolve_fieldB` mirrors `get_key` raising on a missing
`fieldB` and is unreachable for the four valid modes. -/
def registerRel (reg : Registry) (mode : Mode) (modelA modelB fieldA : String)
    (fieldB : Option String) : Except String (Registry × Record) :=
  match resolve_fieldB mode modelA fieldB with
  | none => .error "fieldB is None"
  | some fB =>
    let r : Record := ⟨mode, modelA, modelB, fieldA, fB, false⟩
    let k := get_key r
    let reg1 := dictInsert reg k r
    let rkey := get_reverse_key r
    match regLookup reg1 rkey with
    | none => .ok (reg1, r)
    | some _ =>
      let r1 : Record := { r with reverse_created := true }
      let reg2 := dictInsert reg1 k r1
      match regLookup reg2 rkey with
      | none => .ok (reg2, r1)
      | some reverse =>
        if reverse.reverse_created then
          .error "Multiple possible reverse relationships registered for relationship."
        else
          .ok (dictInsert reg2 rkey { reverse with reverse_created := true }, r1)

/-- `ForeignRegistry.register_field_object`: derive the mode from the
field class flags, take the related model and `related_name` from the
field's `remote_field`, and construct a registry record.  A relation
field always carries its `to` target; the `none` guard keeps the
definition total. -/
def register_field_object (reg : Registry) (model_name field_name : String)
    (f : FieldInstance) : Except String (Registry × Record) :=
  let modeE : Except String Mode :=
    if many_to_many_flag f.cls then .ok .ManyToMany
    else if one_to_one_flag f.cls then .ok .OneToOne
    else if one_to_many_flag f.cls then .ok .OneToMany
    else if many_to_one_flag f.cls then .ok .ManyToOne
    else .error "Unknown field mode"
  match modeE with
  | .error e => .error e
  | .ok mode =>
    match f.toModel with
    | none => .error "relation field without a remote model"
    | some toItem =>
      registerRel reg mode model_name (relItemName toItem) field_name f.relatedName

/-- `ForeignRegistry.all_relationships_resolved`: the unresolved
relationships, in registration order. -/
def all_relationships_resolved (reg : Registry) : List Record :=
  (regValues reg).filter (fun r => r.reverse_created == false)

/-- `ForeignRegistry.check_model_valid`: the relationships expecting
`model` as their modelB that have not been resolved. -/
def check_model_valid (reg : Registry) (model : String) : List Record :=
  (regValues reg).filter (fun r => r.modelB == model && r.reverse_created == false)

/-- Registry states reachable from the empty registry by successful
`ForeignRegistry` constructions. -/
inductive Reachable : Registry → Prop where
  | empty : Reachable []
  | step {reg reg' : Registry} {rec : Record} {mode : Mode}
      {modelA modelB fieldA : String} {fieldB : Option String} :
      Reachable reg →
      registerRel reg mode modelA modelB fieldA fieldB = .ok (reg', rec) →
      Reachable reg'

/-- `is_snake_case` (models.py): every character is a lowercase letter or
an underscore.  Python `str.islower` is modelled by `Char.isLower`. -/
def is_snake_case (name : String) : Bool :=
  name.data.all (fun c => c.isLower || c == '_')

/-- A member of a union annotation: `NoneType` or a real type hint. -/
inductive UnionArg where
  | noneType
  | ty (t : TypeHint)
deriving DecidableEq, Repr

/-- The non-`NoneType` payload of a union member. -/
def UnionArg.toHint : UnionArg → Option TypeHint
  | .noneType => none
  | .ty t => some t

/-- The union-unwrapping block of `TypedModelBase.__new__` (models.py):
`null` records whether `NoneType` occurs among the union arguments; if
exactly one non-`None` member remains it becomes the field type,
otherwise `ValueError` is raised. -/
def unwrap_union (args : List UnionArg) : Except String (TypeHint × Bool) :=
  let null := args.any (fun x => x == UnionArg.noneType)
  let non_null := args.filterMap UnionArg.toHint
  match non_null with
  | [t] => .ok (t, null)
  | _ => .error "Cannot determine field type, nothing other than None in Union"

/-- The annotation of a class attribute as seen by `TypedModelBase.__new__`:
either a single type hint or a union of members. -/
inductive AttrHint where
  | plain (t : TypeHint)
  | unionOf (args : List UnionArg)
deriving DecidableEq, Repr

/-- The lookup-then-build step of `TypedModelBase.__new__`:
`field_instance = FieldTypeRegistry.get_django_lookup(field_type)`,
raising `ValueError` when there is no lookup, then
`field_object = field_instance.item(default=default, null=null)`. -/
def make_field_object (field_type : TypeHint) (default : Option String)
    (null : Bool) : Except String FieldInstance :=
  match get_django_lookup field_type with
  | none => .error "no default django field for that typehint"
  | some field_instance => .ok (field_instance.item default null false)

/-- A value already assigned to an annotated attribute in the class
dictionary: a string default, a manually constructed relation field
(a `models.ForeignObject`), some other truthy object, or some other
falsy object. -/
inductive DctValue where
  | strVal (s : String)
  | foreignObject (f : FieldInstance)
  | otherTruthy
  | otherFalsy
deriving DecidableEq, Repr

/-- One annotated attribute of a class under construction: its name, its
annotation, and the value stored for it in the class dictionary, if any. -/
structure AttrInput where
  name : String
  hint : AttrHint
  value : Option DctValue
deriving DecidableEq, Repr

/-- What `TypedModelBase.__new__` does to the class-dictionary entry of
one attribute: leaves it untouched, assigns the generated field object,
or removes it (the `_Nullify` path). -/
inductive DctEffect where
  | unchanged
  | setField (f : FieldInstance)
  | removed
deriving DecidableEq, Repr

/-- Membership of a field class in the
`OneToManyFieldStandIn | ForeignKey | ManyToManyField | OneToOneField`
isinstance union of `TypedModelBase.__new__`. -/
def is_relation_field (cls : FieldClass) : Bool :=
  cls = .OneToManyFieldStandIn || cls = .ForeignKey ||
  cls = .ManyToManyField || cls = .OneToOneField

/-- The body of the per-attribute loop of `TypedModelBase.__new__`
(models.py): skip names that are not snake case; take a string value as
the default; register a manually created relation field and move on;
skip attributes with any other truthy value; unwrap a union annotation
into a field type and a `null` flag; look up and build the field object;
register relation fields, dropping the stored value for a `ManyToMany` or
`OneToOne` whose reverse is already acknowledged.  The source's
`field_object is OneToManyFieldStandIn` test compares the constructed
instance against the class object itself and therefore never fires; it
is modelled by no branch.  Returns the updated registry and the effect
on the class-dictionary entry. -/
def processAttribute (reg : Registry) (model_name : String) (a : AttrInput) :
    Except String (Registry × DctEffect) :=
  if is_snake_case a.name then
    match a.value with
    | some (.foreignObject f) =>
      match register_field_object reg model_name a.name f with
      | .error e => .error e
      | .ok (reg1, _) => .ok (reg1, .unchanged)
    | some .otherTruthy => .ok (reg, .unchanged)
    | v =>
      let default : Option String :=
        match v with
        | some (.strVal s) => some s
        | _ => none
      let unwrapped : Except String (TypeHint × Bool) :=
        match a.hint with
        | .plain t => .ok (t, false)
        | .unionOf args => unwrap_union args
      match unwrapped with
      | .error e => .error e
      | .ok (field_type, null) =>
        match make_field_object field_type default null with
        | .error e => .error e
        | .ok field_object =>
          if is_relation_field field_object.cls then
            match register_field_object reg model_name a.name field_object with
            | .error e => .error e
            | .ok (reg1, registered) =>
              if (field_object.cls = FieldClass.ManyToManyField ∨
                  field_object.cls = FieldClass.OneToOneField) ∧
                  registered.reverse_created then
                .ok (reg1, .removed)
              else
                .ok (reg1, .setField field_object)
          else
            .ok (reg, .setField field_object)
  else
    .ok (reg, .unchanged)

/-- A single quote character, used in the warning strings. -/
def squote : String := (Char.ofNat 39).toString

/-- The message of the `freeform.W001` warning (checks.py). -/
def warning_msg : String :=
  "Missing explicit reverse relationship for this foreign key. Django doesn" ++
  squote ++ "t require this, but it helps with typing."

/-- A `django.core.checks.Warning` as built by
`reverse_foreign_key_warning`. -/
structure CheckWarning where
  msg : String
  hint : String
  obj : String
  id : String
deriving DecidableEq, Repr

/-- One installed model as seen by the readiness check: its app label,
its class name, and whether it is a `TypedModel` subclass. -/
structure InstalledModel where
  app_label : String
  name : String
  isTypedModel : Bool
deriving DecidableEq, Repr

/-- The warning built for one unresolved relationship of one model
(the `errors.append(Warning(...))` call of checks.py). -/
def mkWarning (m : InstalledModel) (ir : Record) : CheckWarning :=
  { msg := warning_msg
  , hint := "Expecting equivalent in " ++ ir.modelB ++ " model of " ++ squote ++
      ir.fieldB ++ ": " ++ modeToStr (reverse_mode ir) ++ "[" ++ ir.modelA ++
      "] = related(" ++ squote ++ ir.fieldA ++ squote ++ ")" ++ squote
  , obj := m.app_label ++ "." ++ ir.modelA ++ "." ++ ir.fieldA
  , id := "freeform.W001" }

/-- `reverse_foreign_key_warning` (checks.py): for every installed model
that is a `TypedModel` subclass, one warning per unresolved relationship
reported by `check_model_valid` for that model's name.  The function
only builds a list and raises nothing. -/
def reverse_foreign_key_warning (reg : Registry) (ms : List InstalledModel) :
    List CheckWarning :=
  (ms.map (fun m =>
    if m.isTypedModel then (check_model_valid reg m.name).map (mkWarning m)
    else [])).flatten

theorem regLookup_dictInsert (reg : Registry) (k : RegKey) (r : Record) (k' : RegKey) :
    regLookup (dictInsert reg k r) k' =
      if k' = k then some r else regLookup reg k' := by
  induction reg with
  | nil => simp [dictInsert, regLookup]
  | cons hd tl ih =>
    obtain ⟨k0, r0⟩ := hd
    by_cases h0 : k0 = k
    · subst h0
      by_cases h1 : k' = k0 <;> simp [dictInsert, regLookup, h1]
    · simp only [dictInsert, if_neg h0, regLookup]
      by_cases h1 : k' = k0
      · have hk : ¬ k' = k := by rw [h1]; exact h0
        simp [h1, hk, h0]
      · simp [h1, ih]

theorem regLookup_dictInsert_self (reg : Registry) (k : RegKey) (r : Record) :
    regLookup (dictInsert reg k r) k = some r := by
  rw [regLookup_dictInsert, if_pos rfl]

theorem regLookup_dictInsert_ne (reg : Registry) (k : RegKey) (r : Record) (k' : RegKey)
    (h : ¬ k' = k) :
    regLookup (dictInsert reg k r) k' = regLookup reg k' := by
  rw [regLookup_dictInsert, if_neg h]

theorem registerRel_some_eq (reg : Registry) (mode : Mode) (a b fa fB : String) :
    registerRel reg mode a b fa (some fB) =
      if ((flip_mode mode, b, a, fB, fa) : RegKey) = (mode, a, b, fa, fB) then
        .error "Multiple possible reverse relationships registered for relationship."
      else
        match regLookup reg (flip_mode mode, b, a, fB, fa) with
        | none => .ok (dictInsert reg (mode, a, b, fa, fB) ⟨mode, a, b, fa, fB, false⟩,
            ⟨mode, a, b, fa, fB, false⟩)
        | some rev =>
          if rev.reverse_created then
            .error "Multiple possible reverse relationships registered for relationship."
          else
            .ok (dictInsert
                  (dictInsert (dictInsert reg (mode, a, b, fa, fB) ⟨mode, a, b, fa, fB, false⟩)
                    (mode, a, b, fa, fB) ⟨mode, a, b, fa, fB, true⟩)
                  (flip_mode mode, b, a, fB, fa) { rev with reverse_created := true },
              ⟨mode, a, b, fa, fB, true⟩) := by
  unfold registerRel
  simp only [resolve_fieldB, get_key, get_reverse_key]
  by_cases hk : ((flip_mode mode, b, a, fB, fa) : RegKey) = (mode, a, b, fa, fB)
  · simp [hk, regLookup_dictInsert_self]
  · simp only [regLookup_dictInsert_ne _ _ _ _ hk, if_neg hk]
    rcases regLookup reg (flip_mode mode, b, a, fB, fa) with _ | rev
    · rfl
    · rfl

theorem registerRel_resolve (reg : Registry) (mode : Mode) (a b fa : String)
    (fb : Option String) (fB : String) (h : resolve_fieldB mode a fb = some fB) :
    registerRel reg mode a b fa fb = registerRel reg mode a b fa (some fB) := by
  unfold registerRel
  rw [h]
  rfl

/-- Claim C7: reversal is an involution.  `flip_mode` applied twice is the
identity on every valid mode, `OneToOne` and `ManyToMany` are their own
reverses while `OneToMany` and `ManyToOne` swap, the key-tuple reversal
(flip the mode, swap the model names, swap the field names) applied twice
yields the original key, and `get_reverse_key` is exactly that
transformation of `get_key`. -/
theorem claim_C7_flip_mode_involution :
    (∀ m : Mode, flip_mode (flip_mode m) = m) ∧
    flip_mode .OneToOne = .OneToOne ∧
    flip_mode .ManyToMany = .ManyToMany ∧
    flip_mode .OneToMany = .ManyToOne ∧
    flip_mode .ManyToOne = .OneToMany ∧
    (∀ k : RegKey, revKey (revKey k) = k) ∧
    (∀ r : Record, get_reverse_key r = revKey (get_key r)) := by
  refine ⟨fun m => by cases m <;> rfl, rfl, rfl, rfl, rfl, fun k => ?_, fun r => rfl⟩
  obtain ⟨m, a, b, fa, fb⟩ := k
  cases m <;> rfl

/-- Claim C8: when a relationship is registered with `fieldB = None`, the
default filled in is the lowercased modelA name for `OneToOne` and that
name followed by `"_set"` for the other three modes; the resolved
`fieldB` is never `None` for a valid mode, and a successful registration
stores exactly the resolved default as the record's `fieldB`. -/
theorem claim_C8_default_fieldB :
    (∀ a : String, resolve_fieldB .OneToOne a none = some (pyLower a)) ∧
    (∀ a : String, resolve_fieldB .OneToMany a none = some (pyLower a ++ "_set")) ∧
    (∀ a : String, resolve_fieldB .ManyToOne a none = some (pyLower a ++ "_set")) ∧
    (∀ a : String, resolve_fieldB .ManyToMany a none = some (pyLower a ++ "_set")) ∧
    (∀ (m : Mode) (a : String), (resolve_fieldB m a none).isSome = true) ∧
    (∀ (reg : Registry) (mode : Mode) (a b fa : String) (reg' : Registry) (rec : Record),
      registerRel reg mode a b fa none = .ok (reg', rec) →
      some rec.fieldB = resolve_fieldB mode a none) := by
  refine ⟨fun a => rfl, fun a => rfl, fun a => rfl, fun a => rfl,
    fun m a => by cases m <;> rfl, ?_⟩
  intro reg mode a b fa reg' rec h
  rcases hres : resolve_fieldB mode a none with _ | fB
  · cases mode <;> simp [resolve_fieldB] at hres
  · rw [registerRel_resolve reg mode a b fa none fB hres, registerRel_some_eq] at h
    split at h
    · exact absurd h (by simp)
    · split at h
      · simp only [Except.ok.injEq, Prod.mk.injEq] at h
        rw [← h.2]
      · split at h
        · exact absurd h (by simp)
        · simp only [Except.ok.injEq, Prod.mk.injEq] at h
          rw [← h.2]

/-- Claim C5: `get_django_lookup` maps `OneToOne[M]` to a `OneToOneField`
lookup, `ManyToOne[M]` (and a bare model class or bare string annotation)
to a `ForeignKey` lookup, `ManyToMany[M]` to a `ManyToManyField` lookup
and `OneToMany[M]` to a `OneToManyFieldStandIn` lookup, each carrying the
referenced model as the `to` target after `fix_self` normalisation
(which sends `typing.Self` and the literal string `"Self"` to the string
`"self"` and leaves every other target unchanged). -/
theorem claim_C5_relationship_shape_lookup :
    (∀ item : RelItem,
      get_django_lookup (.oneToOneHint item) =
        some ⟨.OneToOneField, "related_name",
          [("to", .rel (fix_self_item item)), ("on_delete", .cascade)]⟩) ∧
    (∀ item : RelItem,
      get_django_lookup (.manyToOneHint item) =
        some ⟨.ForeignKey, "related_name",
          [("on_delete", .cascade), ("to", .rel (fix_self_item item))]⟩) ∧
    (∀ n : String,
      get_django_lookup (.modelClass n) =
        some ⟨.ForeignKey, "related_name",
          [("on_delete", .cascade), ("to", .rel (.modelCls n))]⟩) ∧
    (∀ s : String,
      get_django_lookup (.strHint s) =
        some ⟨.ForeignKey, "related_name",
          [("on_delete", .cascade), ("to", .rel (fix_self_item (.strName s)))]⟩) ∧
    (∀ s : String, s ≠ "Self" →
      get_django_lookup (.strHint s) =
        some ⟨.ForeignKey, "related_name",
          [("on_delete", .cascade), ("to", .rel (.strName s))]⟩) ∧
    get_django_lookup (.strHint "Self") =
      some ⟨.ForeignKey, "related_name",
        [("on_delete", .cascade), ("to", .rel (.strName "self"))]⟩ ∧
    get_django_lookup .selfTy =
      some ⟨.ForeignKey, "related_name",
        [("on_delete", .cascade), ("to", .rel (.strName "self"))]⟩ ∧
    (∀ arg : RelItem,
      get_django_lookup (.manyToManyHint arg) =
        some ⟨.ManyToManyField, "related_name", [("to", .rel (fix_self_item arg))]⟩) ∧
    (∀ arg : RelItem,
      get_django_lookup (.oneToManyHint arg) =
        some ⟨.OneToManyFieldStandIn, "related_name", [("to", .rel (fix_self_item arg))]⟩) := by
  have hstr : ∀ s : String,
      get_django_lookup (.strHint s) =
        some ⟨.ForeignKey, "related_name",
          [("on_delete", .cascade), ("to", .rel (fix_self_item (.strName s)))]⟩ := by
    intro s
    by_cases hs : s = "Self"
    · subst hs; rfl
    · simp [get_django_lookup, fix_self_hint, fix_self_item, hs]
  refine ⟨fun _ => rfl, fun _ => rfl, fun _ => rfl, hstr, ?_, by rfl, by rfl,
    fun _ => rfl, fun _ => rfl⟩
  intro s hs
  rw [hstr s]
  simp [fix_self_item, hs]

/-- Claim C3: errors are raised synchronously at class-definition time.
A snake-case annotated attribute (with no overriding class-dictionary
value) whose type hint has no registered field lookup makes
`TypedModelBase.__new__` raise `ValueError`; `str_to_mode` raises
`ValueError` on every string outside the four valid modes; and
`field_type_to_mode` raises `ValueError` on every field class that is not
a subclass of one of the four relationship field classes. -/
theorem claim_C3_definition_time_errors :
    (∀ (reg : Registry) (m nm : String) (t : TypeHint) (v : Option DctValue),
      is_snake_case nm = true →
      (v = none ∨ (∃ s, v = some (.strVal s)) ∨ v = some .otherFalsy) →
      get_django_lookup t = none →
      ∃ msg, processAttribute reg m ⟨nm, .plain t, v⟩ = .error msg) ∧
    (∀ s : String,
      s ≠ "OneToOne" → s ≠ "OneToMany" → s ≠ "ManyToOne" → s ≠ "ManyToMany" →
      ∃ msg, str_to_mode s = .error msg) ∧
    (∀ ft : FieldClass,
      field_issubclass ft .ForeignKey = false →
      field_issubclass ft .ManyToManyField = false →
      field_issubclass ft .OneToOneField = false →
      field_issubclass ft .OneToManyFieldStandIn = false →
      ∃ msg, field_type_to_mode ft = .error msg) := by
  refine ⟨?_, ?_, ?_⟩
  · intro reg m nm t v hsnake hv hgdl
    refine ⟨"no default django field for that typehint", ?_⟩
    rcases hv with rfl | ⟨s, rfl⟩ | rfl <;>
      simp [processAttribute, hsnake, make_field_object, hgdl]
  · intro s h1 h2 h3 h4
    exact ⟨"Unknown mode " ++ s, by simp [str_to_mode, h1, h2, h3, h4]⟩
  · intro ft h1 h2 h3 h4
    exact ⟨"Unknown field type", by simp [field_type_to_mode, h1, h2, h3, h4]⟩

/-- Claim C9: a union annotation `T | None` with exactly one non-`None`
member resolves to `T` with the `null` flag set, the generated field is
then built from `T`'s lookup with `null=True`, and a union annotation
with two or more non-`None` members makes `TypedModelBase.__new__` raise
`ValueError` instead of producing a field. -/
theorem claim_C9_optional_unions :
    (∀ (args : List UnionArg) (t : TypeHint),
      UnionArg.noneType ∈ args →
      args.filterMap UnionArg.toHint = [t] →
      unwrap_union args = .ok (t, true)) ∧
    (∀ (t : TypeHint) (fl : FieldLookup) (d : Option String),
      get_django_lookup t = some fl →
      make_field_object t d true = .ok (fl.item d true false)) ∧
    (∀ (reg : Registry) (m nm : String) (args : List UnionArg),
      is_snake_case nm = true →
      2 ≤ (args.filterMap UnionArg.toHint).length →
      ∃ msg, processAttribute reg m ⟨nm, .unionOf args, none⟩ = .error msg) := by
  refine ⟨?_, ?_, ?_⟩
  · intro args t hmem hfm
    unfold unwrap_union
    rw [hfm]
    have hany : args.any (fun x => x == UnionArg.noneType) = true :=
      List.any_eq_true.mpr ⟨UnionArg.noneType, hmem, by simp⟩
    rw [hany]
  · intro t fl d hgdl
    unfold make_field_object
    rw [hgdl]
  · intro reg m nm args hsnake hlen
    have herr : ∃ msg, unwrap_union args = .error msg := by
      unfold unwrap_union
      rcases hfm : args.filterMap UnionArg.toHint with _ | ⟨t1, _ | ⟨t2, rest⟩⟩
      · exact ⟨_, rfl⟩
      · rw [hfm] at hlen; simp at hlen
      · exact ⟨_, rfl⟩
    obtain ⟨msg, hmsg⟩ := herr
    exact ⟨msg, by simp [processAttribute, hsnake, hmsg]⟩

/-- Claim C10: the metaclass only rewrites snake-case annotated names.
`is_snake_case` is false for every name containing a character that is
neither a lowercase letter nor an underscore (uppercase letters, digits,
or anything else), and for such a name `TypedModelBase.__new__` leaves
the registry and the class-dictionary entry unchanged. -/
theorem claim_C10_non_snake_case_untouched :
    (∀ (nm : String) (c : Char), c ∈ nm.data → c.isLower = false → c ≠ '_' →
      is_snake_case nm = false) ∧
    (∀ (reg : Registry) (m : String) (a : AttrInput),
      is_snake_case a.name = false →
      processAttribute reg m a = .ok (reg, .unchanged)) := by
  constructor
  · intro nm c hc hlow hus
    by_contra h
    rw [Bool.not_eq_false] at h
    unfold is_snake_case at h
    rw [List.all_eq_true] at h
    have hcc := h c hc
    simp [hlow, hus] at hcc
  · intro reg m a h
    simp [processAttribute, h]

theorem inv_dictInsert (reg : Registry) (k0 : RegKey) (r0 : Record)
    (hinv : ∀ k r, regLookup reg k = some r → k = get_key r)
    (hk0 : k0 = get_key r0) :
    ∀ k r, regLookup (dictInsert reg k0 r0) k = some r → k = get_key r := by
  intro k r h
  rw [regLookup_dictInsert] at h
  split at h
  · rename_i heq
    rw [Option.some.injEq] at h
    rw [heq, hk0, h]
  · exact hinv k r h

/-- Claim C1: in every reachable registry state, constructing a record
whose reverse key matches an existing record already marked
`reverse_created` raises `ValueError`, so no forward relationship is ever
matched by more than one registered reverse. -/
theorem claim_C1_duplicate_reverse_raises
    (reg : Registry) (mode : Mode) (a b fa : String) (fb : Option String)
    (fB : String) (rev : Record)
    (_hreach : Reachable reg)
    (hfB : resolve_fieldB mode a fb = some fB)
    (hrev : regLookup reg (flip_mode mode, b, a, fB, fa) = some rev)
    (hrc : rev.reverse_created = true) :
    ∃ msg, registerRel reg mode a b fa fb = .error msg := by
  rw [registerRel_resolve reg mode a b fa fb fB hfB, registerRel_some_eq]
  by_cases hk : ((flip_mode mode, b, a, fB, fa) : RegKey) = (mode, a, b, fa, fB)
  · rw [if_pos hk]
    exact ⟨_, rfl⟩
  · rw [if_neg hk, hrev]
    exact ⟨"Multiple possible reverse relationships registered for relationship.",
      by simp [hrc]⟩

/-- Claim C2: a successful registration resolves the implicit reverse.
If a record is already present under the reverse key with
`reverse_created` False, then afterwards both the new record and that
record carry `reverse_created` True; if no record is present under the
reverse key, the new record is stored with `reverse_created` False. -/
theorem claim_C2_reverse_inference
    (reg : Registry) (mode : Mode) (a b fa : String) (fb : Option String)
    (fB : String) (reg' : Registry) (rec : Record)
    (hfB : resolve_fieldB mode a fb = some fB)
    (hok : registerRel reg mode a b fa fb = .ok (reg', rec)) :
    (∀ rev : Record, regLookup reg (flip_mode mode, b, a, fB, fa) = some rev →
      rev.reverse_created = false →
      rec.reverse_created = true ∧
      regLookup reg' (mode, a, b, fa, fB) = some ⟨mode, a, b, fa, fB, true⟩ ∧
      regLookup reg' (flip_mode mode, b, a, fB, fa) =
        some { rev with reverse_created := true }) ∧
    (regLookup reg (flip_mode mode, b, a, fB, fa) = none →
      rec.reverse_created = false ∧
      regLookup reg' (mode, a, b, fa, fB) = some ⟨mode, a, b, fa, fB, false⟩) := by
  rw [registerRel_resolve reg mode a b fa fb fB hfB, registerRel_some_eq] at hok
  by_cases hk : ((flip_mode mode, b, a, fB, fa) : RegKey) = (mode, a, b, fa, fB)
  · rw [if_pos hk] at hok
    exact absurd hok (by simp)
  · rw [if_neg hk] at hok
    have hk' : ¬ ((mode, a, b, fa, fB) : RegKey) = (flip_mode mode, b, a, fB, fa) :=
      fun h => hk h.symm
    constructor
    · intro rev hrev hrc
      rw [hrev] at hok
      simp only [hrc, if_neg, Bool.false_eq_true, if_false, Except.ok.injEq,
        Prod.mk.injEq] at hok
      obtain ⟨hreg, hrec⟩ := hok
      refine ⟨by rw [← hrec], ?_, ?_⟩
      · rw [← hreg, regLookup_dictInsert_ne _ _ _ _ hk', regLookup_dictInsert_self]
      · rw [← hreg, regLookup_dictInsert_self]
    · intro hnone
      rw [hnone] at hok
      simp only [Except.ok.injEq, Prod.mk.injEq] at hok
      obtain ⟨hreg, hrec⟩ := hok
      refine ⟨by rw [← hrec], ?_⟩
      rw [← hreg, regLookup_dictInsert_self]

/-- Claim C6: every record is stored in the flat registry under its own
5-tuple key.  A successful construction maps the new record's `get_key`
tuple to that record, and in every registry state reachable by a
sequence of successful insertions, every stored binding's key is the
`get_key` tuple of the record it holds. -/
theorem claim_C6_registry_keyed_by_own_key :
    (∀ (reg : Registry) (mode : Mode) (a b fa : String) (fb : Option String)
        (reg' : Registry) (rec : Record),
      registerRel reg mode a b fa fb = .ok (reg', rec) →
      regLookup reg' (get_key rec) = some rec) ∧
    (∀ reg : Registry, Reachable reg →
      ∀ (k : RegKey) (r : Record), regLookup reg k = some r → k = get_key r) := by
  constructor
  · intro reg mode a b fa fb reg' rec hok
    rcases hres : resolve_fieldB mode a fb with _ | fB
    · unfold registerRel at hok
      rw [hres] at hok
      exact absurd hok (by simp)
    · rw [registerRel_resolve reg mode a b fa fb fB hres, registerRel_some_eq] at hok
      by_cases hk : ((flip_mode mode, b, a, fB, fa) : RegKey) = (mode, a, b, fa, fB)
      · rw [if_pos hk] at hok
        exact absurd hok (by simp)
      · rw [if_neg hk] at hok
        have hk' : ¬ ((mode, a, b, fa, fB) : RegKey) = (flip_mode mode, b, a, fB, fa) :=
          fun h => hk h.symm
        split at hok
        · simp only [Except.ok.injEq, Prod.mk.injEq] at hok
          obtain ⟨hreg, hrec⟩ := hok
          rw [← hreg, ← hrec]
          simp [get_key, regLookup_dictInsert_self]
        · split at hok
          · exact absurd hok (by simp)
          · simp only [Except.ok.injEq, Prod.mk.injEq] at hok
            obtain ⟨hreg, hrec⟩ := hok
            rw [← hreg, ← hrec]
            simp [get_key, regLookup_dictInsert_ne _ _ _ _ hk',
              regLookup_dictInsert_self]
  · intro reg hreach
    induction hreach with
    | empty => intro k r h; simp [regLookup] at h
    | @step reg0 reg' rec mode a b fa fb _ hstep ih =>
      rcases hres : resolve_fieldB mode a fb with _ | fB
      · unfold registerRel at hstep
        rw [hres] at hstep
        exact absurd hstep (by simp)
      · rw [registerRel_resolve reg0 mode a b fa fb fB hres, registerRel_some_eq] at hstep
        by_cases hk : ((flip_mode mode, b, a, fB, fa) : RegKey) = (mode, a, b, fa, fB)
        · rw [if_pos hk] at hstep
          exact absurd hstep (by simp)
        · rw [if_neg hk] at hstep
          split at hstep
          · simp only [Except.ok.injEq, Prod.mk.injEq] at hstep
            obtain ⟨hreg, _⟩ := hstep
            rw [← hreg]
            exact inv_dictInsert _ _ _ ih rfl
          · rename_i rev heq
            split at hstep
            · exact absurd hstep (by simp)
            · simp only [Except.ok.injEq, Prod.mk.injEq] at hstep
              obtain ⟨hreg, _⟩ := hstep
              rw [← hreg]
              have hrkey : (flip_mode mode, b, a, fB, fa) = get_key rev :=
                ih _ _ heq
              exact inv_dictInsert _ _ _
                (inv_dictInsert _ _ _ (inv_dictInsert _ _ _ ih rfl) rfl) hrkey

/-- Claim C4: missing reverse relationships surface as non-fatal warnings.
`check_model_valid` returns exactly the registry records whose modelB is
the given model name and whose `reverse_created` flag is False, and the
registered check function (a total function raising nothing) emits one
warning with id `freeform.W001` per such record for each installed
`TypedModel` subclass. -/
theorem claim_C4_readiness_check_warnings (reg : Registry) (model : String)
    (ms : List InstalledModel) :
    (∀ r : Record, r ∈ check_model_valid reg model ↔
      r ∈ regValues reg ∧ r.modelB = model ∧ r.reverse_created = false) ∧
    (reverse_foreign_key_warning reg ms).length =
      (ms.map (fun m =>
        if m.isTypedModel then (check_model_valid reg m.name).length else 0)).sum ∧
    (∀ w ∈ reverse_foreign_key_warning reg ms, w.id = "freeform.W001") := by
  refine ⟨?_, ?_, ?_⟩
  · intro r
    simp [check_model_valid, List.mem_filter]
  · induction ms with
    | nil => rfl
    | cons m tl ih =>
      simp only [reverse_foreign_key_warning, List.map_cons, List.flatten_cons,
        List.length_append, List.sum_cons] at ih ⊢
      rw [ih]
      by_cases hm : m.isTypedModel = true
      · simp [hm]
      · simp [hm]
  · intro w hw
    unfold reverse_foreign_key_warning at hw
    rw [List.mem_flatten] at hw
    obtain ⟨l, hl, hwl⟩ := hw
    rw [List.mem_map] at hl
    obtain ⟨m, _, rfl⟩ := hl
    by_cases hm : m.isTypedModel = true
    · rw [if_pos hm] at hwl
      rw [List.mem_map] at hwl
      obtain ⟨ir, _, rfl⟩ := hwl
      rfl
    · rw [if_neg hm] at hwl
      simp at hwl

/-- Witness for claim C1: registering a second copy of the reverse of an
already-resolved relationship raises. -/
theorem claim_C1_witness :
    ∃ msg,
      registerRel
        [((Mode.ManyToOne, "A", "B", "fa", "fb"),
          ⟨Mode.ManyToOne, "A", "B", "fa", "fb", true⟩),
         ((Mode.OneToMany, "B", "A", "fb", "fa"),
          ⟨Mode.OneToMany, "B", "A", "fb", "fa", true⟩)]
        Mode.OneToMany "B" "A" "fb" (some "fa") = .error msg := by
  have h1 : Reachable [((Mode.ManyToOne, "A", "B", "fa", "fb"),
      (⟨Mode.ManyToOne, "A", "B", "fa", "fb", false⟩ : Record))] :=
    @Reachable.step [] _ ⟨Mode.ManyToOne, "A", "B", "fa", "fb", false⟩
      Mode.ManyToOne "A" "B" "fa" (some "fb") Reachable.empty rfl
  have h2 : Reachable [((Mode.ManyToOne, "A", "B", "fa", "fb"),
      (⟨Mode.ManyToOne, "A", "B", "fa", "fb", true⟩ : Record)),
      ((Mode.OneToMany, "B", "A", "fb", "fa"),
      (⟨Mode.OneToMany, "B", "A", "fb", "fa", true⟩ : Record))] :=
    @Reachable.step _ _ ⟨Mode.OneToMany, "B", "A", "fb", "fa", true⟩
      Mode.OneToMany "B" "A" "fb" (some "fa") h1 rfl
  exact claim_C1_duplicate_reverse_raises _ Mode.OneToMany "B" "A" "fb" (some "fa")
    "fa" ⟨Mode.ManyToOne, "A", "B", "fa", "fb", true⟩ h2 rfl rfl rfl

/-- Witness for claim C2: registering the reverse of a pending
relationship marks both sides resolved. -/
theorem claim_C2_witness :
    (⟨Mode.OneToMany, "B", "A", "fb", "fa", true⟩ : Record).reverse_created = true ∧
    regLookup
      [((Mode.ManyToOne, "A", "B", "fa", "fb"),
        ⟨Mode.ManyToOne, "A", "B", "fa", "fb", true⟩),
       ((Mode.OneToMany, "B", "A", "fb", "fa"),
        ⟨Mode.OneToMany, "B", "A", "fb", "fa", true⟩)]
      (Mode.OneToMany, "B", "A", "fb", "fa") =
      some ⟨Mode.OneToMany, "B", "A", "fb", "fa", true⟩ ∧
    regLookup
      [((Mode.ManyToOne, "A", "B", "fa", "fb"),
        ⟨Mode.ManyToOne, "A", "B", "fa", "fb", true⟩),
       ((Mode.OneToMany, "B", "A", "fb", "fa"),
        ⟨Mode.OneToMany, "B", "A", "fb", "fa", true⟩)]
      (flip_mode Mode.OneToMany, "A", "B", "fa", "fb") =
      some { (⟨Mode.ManyToOne, "A", "B", "fa", "fb", false⟩ : Record) with
        reverse_created := true } :=
  (claim_C2_reverse_inference
    [((Mode.ManyToOne, "A", "B", "fa", "fb"),
      ⟨Mode.ManyToOne, "A", "B", "fa", "fb", false⟩)]
    Mode.OneToMany "B" "A" "fb" (some "fa") "fa" _ _ rfl rfl).1
    ⟨Mode.ManyToOne, "A", "B", "fa", "fb", false⟩ rfl rfl

/-- Witness for claim C3: concrete definition-time errors. -/
theorem claim_C3_witness :
    (∃ msg, processAttribute [] "M"
      ⟨"x", .plain (.plainTy (.pyOther "object")), none⟩ = .error msg) ∧
    (∃ msg, str_to_mode "Bogus" = .error msg) ∧
    (∃ msg, field_type_to_mode .CharField = .error msg) :=
  ⟨claim_C3_definition_time_errors.1 [] "M" "x" (.plainTy (.pyOther "object")) none
      (by decide) (Or.inl rfl) rfl,
   claim_C3_definition_time_errors.2.1 "Bogus"
      (by decide) (by decide) (by decide) (by decide),
   claim_C3_definition_time_errors.2.2 .CharField
      (by decide) (by decide) (by decide) (by decide)⟩

/-- Witness for claim C4: one warning for the single unresolved
relationship of a single installed typed model. -/
theorem claim_C4_witness :
    ((⟨Mode.ManyToOne, "A", "B", "fa", "fb", false⟩ : Record) ∈
      check_model_valid
        [((Mode.ManyToOne, "A", "B", "fa", "fb"),
          ⟨Mode.ManyToOne, "A", "B", "fa", "fb", false⟩)] "B" ↔
      (⟨Mode.ManyToOne, "A", "B", "fa", "fb", false⟩ : Record) ∈
        regValues
          [((Mode.ManyToOne, "A", "B", "fa", "fb"),
            ⟨Mode.ManyToOne, "A", "B", "fa", "fb", false⟩)] ∧
        (⟨Mode.ManyToOne, "A", "B", "fa", "fb", false⟩ : Record).modelB = "B" ∧
        (⟨Mode.ManyToOne, "A", "B", "fa", "fb", false⟩ : Record).reverse_created =
          false) ∧
    (reverse_foreign_key_warning
      [((Mode.ManyToOne, "A", "B", "fa", "fb"),
        ⟨Mode.ManyToOne, "A", "B", "fa", "fb", false⟩)]
      [⟨"app", "B", true⟩]).length = 1 ∧
    (mkWarning ⟨"app", "B", true⟩
      ⟨Mode.ManyToOne, "A", "B", "fa", "fb", false⟩).id = "freeform.W001" :=
  ⟨(claim_C4_readiness_check_warnings
      [((Mode.ManyToOne, "A", "B", "fa", "fb"),
        ⟨Mode.ManyToOne, "A", "B", "fa", "fb", false⟩)] "B" [⟨"app", "B", true⟩]).1 _,
   ((claim_C4_readiness_check_warnings
      [((Mode.ManyToOne, "A", "B", "fa", "fb"),
        ⟨Mode.ManyToOne, "A", "B", "fa", "fb", false⟩)] "B" [⟨"app", "B", true⟩]).2.1).trans
      (by decide),
   (claim_C4_readiness_check_warnings
      [((Mode.ManyToOne, "A", "B", "fa", "fb"),
        ⟨Mode.ManyToOne, "A", "B", "fa", "fb", false⟩)] "B" [⟨"app", "B", true⟩]).2.2 _
      (by decide)⟩

/-- Witness for claim C6: the concrete record just registered is found
under its own key, and that key is its `get_key` tuple. -/
theorem claim_C6_witness :
    regLookup [((Mode.ManyToOne, "A", "B", "fa", "fb"),
        ⟨Mode.ManyToOne, "A", "B", "fa", "fb", false⟩)]
      (get_key ⟨Mode.ManyToOne, "A", "B", "fa", "fb", false⟩) =
      some ⟨Mode.ManyToOne, "A", "B", "fa", "fb", false⟩ ∧
    ((Mode.ManyToOne, "A", "B", "fa", "fb") : RegKey) =
      get_key ⟨Mode.ManyToOne, "A", "B", "fa", "fb", false⟩ := by
  have h1 : Reachable [((Mode.ManyToOne, "A", "B", "fa", "fb"),
      (⟨Mode.ManyToOne, "A", "B", "fa", "fb", false⟩ : Record))] :=
    @Reachable.step [] _ ⟨Mode.ManyToOne, "A", "B", "fa", "fb", false⟩
      Mode.ManyToOne "A" "B" "fa" (some "fb") Reachable.empty rfl
  exact ⟨claim_C6_registry_keyed_by_own_key.1 [] Mode.ManyToOne "A" "B" "fa"
      (some "fb") _ _ rfl,
    claim_C6_registry_keyed_by_own_key.2 _ h1 _ _ rfl⟩

/-- Witness for claim C8: the stored `fieldB` of a registration without an
explicit reverse field name is the resolved default. -/
theorem claim_C8_witness :
    some (⟨Mode.ManyToOne, "My", "B", "fa", "my_set", false⟩ : Record).fieldB =
      resolve_fieldB Mode.ManyToOne "My" none :=
  claim_C8_default_fieldB.2.2.2.2.2 [] Mode.ManyToOne "My" "B" "fa"
    [((Mode.ManyToOne, "My", "B", "fa", "my_set"),
      ⟨Mode.ManyToOne, "My", "B", "fa", "my_set", false⟩)]
    ⟨Mode.ManyToOne, "My", "B", "fa", "my_set", false⟩ (by rfl)

/-- Witness for claim C9: concrete union annotations. -/
theorem claim_C9_witness :
    unwrap_union [.ty (.plainTy .pyInt), .noneType] = .ok (.plainTy .pyInt, true) ∧
    make_field_object (.plainTy .pyInt) none true =
      .ok ((⟨.IntegerField, "default", []⟩ : FieldLookup).item none true false) ∧
    (∃ msg, processAttribute [] "M"
      ⟨"x", .unionOf [.ty (.plainTy .pyInt), .ty (.plainTy .pyStr)], none⟩ =
        .error msg) :=
  ⟨claim_C9_optional_unions.1 [.ty (.plainTy .pyInt), .noneType] (.plainTy .pyInt)
      (by decide) rfl,
   claim_C9_optional_unions.2.1 (.plainTy .pyInt) ⟨.IntegerField, "default", []⟩
      none rfl,
   claim_C9_optional_unions.2.2 [] "M" "x"
      [.ty (.plainTy .pyInt), .ty (.plainTy .pyStr)] (by decide) (by decide)⟩

/-- Witness for claim C10: a name with an uppercase letter is skipped. -/
theorem claim_C10_witness :
    is_snake_case "aB" = false ∧
    processAttribute [] "M" ⟨"aB", .plain (.plainTy .pyInt), none⟩ =
      .ok ([], .unchanged) :=
  ⟨claim_C10_non_snake_case_untouched.1 "aB" 'B' (by decide) (by decide) (by decide),
   claim_C10_non_snake_case_untouched.2 [] "M" _ (by decide)⟩

/-- Witness for claim C5: a concrete bare string annotation other than
`"Self"` passes through to the `to` target unchanged. -/
theorem claim_C5_witness :
    get_django_lookup (.strHint "Other") =
      some ⟨.ForeignKey, "related_name",
        [("on_delete", .cascade), ("to", .rel (.strName "Other"))]⟩ :=
  claim_C5_relationship_shape_lookup.2.2.2.2.1 "Other" (by decide)
